import Mathlib

/-!
# SQL Runner — verification of the execute/history frontend path

Shallow embedding of the SQL Runner client code:
* `src/frontend/components/QueryEditor.js` (`handleExecute`, `handleKeyDown`)
* `src/frontend/components/ResultsTable.js` (`ResultsTable`)
* `src/frontend/app/dashboard/page.js` (`handleQueryExecuted`)
* `src/frontend/lib/api.js` (request/response interceptors)
* `QueryHistory` component (`handleClearHistory`)

The Python backend (FastAPI) is not part of the source tree; where a claim
depends on it, the backend operation is modelled from the spec (§4.2, §4.3,
§4.5) and from the repository README's documented response shapes, and each
such definition is marked `Modelled from the spec:`.
-/

namespace SqlRunner

/-- A JavaScript runtime value, as it appears in JSON responses and table
cells: `null`, `undefined`, numbers (modelled as integers; the numeric
formatting of non-integral floats is not needed by any claim), strings and
booleans. -/
inductive JSValue where
  | null
  | undefJS
  | num (n : Int)
  | str (s : String)
  | bool (b : Bool)
deriving DecidableEq, Repr

/-- JavaScript truthiness: `null`, `undefined`, `0`, `""` and `false` are
falsy, everything else is truthy. -/
def jsTruthy : JSValue → Bool
  | .null => false
  | .undefJS => false
  | .num n => n != 0
  | .str s => s != ""
  | .bool b => b

/-- JavaScript `String(v)` conversion for the values we model. -/
def jsToString : JSValue → String
  | .null => "null"
  | .undefJS => "undefined"
  | .num n => toString n
  | .str s => s
  | .bool b => if b then "true" else "false"

/-- A JavaScript object: an insertion-ordered association of string keys to
values (keys unique in any object built by the runtime; lookup takes the
first match). -/
abbrev JSObject := List (String × JSValue)

/-- Property access `o[k]`: the first value bound to `k`, `undefined` when
the key is absent. -/
def jsGet (o : JSObject) (k : String) : JSValue :=
  match o.find? (fun p => p.1 == k) with
  | some p => p.2
  | none => .undefJS

/-- `Object.keys(o)`: the keys of `o` in insertion order, each once. -/
def jsKeys (o : JSObject) : List String :=
  (o.map Prod.fst).dedup

/-- A result row, as delivered in the `data` array of an execute response:
a JS object mapping column names to values. -/
abbrev Row := JSObject

/-- The execute response consumed by `ResultsTable` / `handleQueryExecuted`
(field names as in `src/README.md` §`POST /query/execute` and in the
component code: `success`, `data`, `columns`, `error`, `execution_time`,
`rows_affected`). -/
structure ExecutionResult where
  success : Bool
  data : Option (List Row) := none
  columns : Option (List String) := none
  error : Option String := none
  execution_time : Option JSValue := none
  rows_affected : Option Int := none

/-- One rendered table cell (`ResultsTable.js` lines 152–156 and 186–189):
either the dedicated NULL marker span or the text `String(row[column])`. -/
inductive CellView where
  | nullMark
  | text (s : String)
deriving DecidableEq, Repr

/-- Cell rendering from `ResultsTable.js`:
`row[column] !== null && row[column] !== undefined ? String(row[column])
: <span …>NULL</span>`. -/
def renderCell (row : Row) (column : String) : CellView :=
  match jsGet row column with
  | .null => .nullMark
  | .undefJS => .nullMark
  | v => .text (jsToString v)

/-- The conditional execution-time caption
(`results.execution_time && … {(results.execution_time * 1000).toFixed(2)}ms`):
shown exactly when the field is present and truthy; we keep the raw value. -/
def shownExecTime (r : ExecutionResult) : Option JSValue :=
  match r.execution_time with
  | some v => if jsTruthy v then some v else none
  | none => none

/-- What `ResultsTable` renders: the error card, the "No Results" card, or
the results table (headers, body cells row-major, time caption). -/
inductive RenderView where
  | errorView (err : Option String)
  | noResults (time : Option JSValue)
  | table (headers : List String) (body : List (List CellView)) (time : Option JSValue)
deriving DecidableEq, Repr

/-- `ResultsTable.js`: error card when `!results.success`; "No Results"
card when `!results.data || results.data.length === 0`; otherwise the table
over `const columns = results.columns || Object.keys(results.data[0])`
(an empty `columns` array is truthy in JS and is used as-is; only a
missing/null `columns` falls back to the first row's keys). -/
def ResultsTable (results : ExecutionResult) : RenderView :=
  if results.success = false then
    .errorView results.error
  else
    match results.data with
    | none => .noResults (shownExecTime results)
    | some [] => .noResults (shownExecTime results)
    | some (r0 :: rest) =>
        let columns := results.columns.getD (jsKeys r0)
        .table columns
          ((r0 :: rest).map (fun row => columns.map (renderCell row)))
          (shownExecTime results)

/-- The outcome of `await executeQuery(query)` as seen by `handleExecute`
in `QueryEditor.js`: either the parsed response body, or a thrown error
carrying an optional `message`. -/
inductive HttpReply where
  | ok (r : ExecutionResult)
  | err (message : Option String)

/-- JavaScript `query.trim()` on the text as a character sequence: strip
leading and trailing whitespace. -/
def jsTrim (l : List Char) : List Char :=
  ((l.dropWhile Char.isWhitespace).reverse.dropWhile Char.isWhitespace).reverse

/-- JavaScript `m || d` on an optional string: the default replaces a
missing or empty (falsy) message. -/
def jsOrDefault (m : Option String) (d : String) : String :=
  match m with
  | some s => if s = "" then d else s
  | none => d

/-- `handleExecute` from `QueryEditor.js`: an empty-after-trim query is
rejected locally with `{success:false, error:'Please enter a query'}` and no
request is issued; otherwise the response is passed through, and a thrown
error becomes `{success:false, error: error.message || 'Failed to execute
query'}`. Returns the result handed to `onQueryExecuted` and whether the
backend call `executeQuery(query)` was issued. -/
def handleExecute (query : String) (net : HttpReply) : ExecutionResult × Bool :=
  if jsTrim query.data = [] then
    ({ success := false, error := some "Please enter a query" }, false)
  else
    match net with
    | .ok r => (r, true)
    | .err m => ({ success := false, error := some (jsOrDefault m "Failed to execute query") }, true)

/-- The DDL kinds that trigger a tables refresh in
`handleQueryExecuted` (`dashboard/page.js`). -/
def ddlKinds : List String := ["create_table", "drop_table", "alter_table"]

/-- `firstResult.type && ['create_table','drop_table','alter_table'].includes(firstResult.type)`:
truthy `type` field that `includes` (strict equality) matches one of the
three DDL kind strings. -/
def isDDLType (v : JSValue) : Bool :=
  jsTruthy v &&
    (match v with
     | .str s => ddlKinds.contains s
     | _ => false)

/-- `handleQueryExecuted` from `dashboard/page.js`, restricted to its
tables-cache decision: the tables list is refreshed exactly when
`results.success && results.data && results.data.length > 0` and the first
data element's `type` is one of the DDL kinds. -/
def handleQueryExecuted (results : ExecutionResult) : Bool :=
  results.success &&
    (match results.data with
     | some (first :: _) => isDDLType (jsGet first "type")
     | some [] => false
     | none => false)

/-- The native outcome of running one statement against the embedded
store (spec §4.2): materialized rows with column names, a mutation's
affected-row count, or a native error message. -/
inductive EngineOutcome where
  | rowsOut (columns : List String) (rows : List Row)
  | affected (n : Int)
  | failure (msg : String)

/-- The spec's stipulation (§4.2, §8) that a native engine failure carries
a non-empty message, surfaced verbatim. -/
def engineMsgNonempty : EngineOutcome → Prop
  | .failure msg => msg ≠ ""
  | _ => True

/-- Modelled from the spec: the backend execute endpoint (Execution Engine
§4.2 + Result Normalizer §4.3) is not under `src/`; per the spec and the
README's documented response shapes, a row-producing statement yields
`success:true` with populated `columns`/`data`, a mutation yields
`success:true` with `rows_affected` and empty `columns`/`data`, and any
native failure is recovered into `{success:false, error:<message>}` with
`data`/`columns` absent, the elapsed time always attached under
`execution_time`. -/
def backendExecute (outcome : EngineOutcome) (elapsed : JSValue) : ExecutionResult :=
  match outcome with
  | .rowsOut cols rows =>
      { success := true, data := some rows, columns := some cols,
        execution_time := some elapsed }
  | .affected n =>
      { success := true, data := some [], columns := some [],
        rows_affected := some n, execution_time := some elapsed }
  | .failure msg =>
      { success := false, error := some msg, execution_time := some elapsed }

/-- The execution-time caption read from the raw response object
(`ResultsTable.js` lines 63–69 and 102–107): the component reads the
property named `execution_time` and shows the caption exactly when that
property is truthy. -/
def execTimeShown (resp : JSObject) : Option JSValue :=
  let v := jsGet resp "execution_time"
  if jsTruthy v then some v else none

/-- A history record, shaped as in the backend README's `query_history`
table and the `GET /query/history` response: one execution attempt, scoped
to a user. -/
structure HistoryEntry where
  username : String
  query : String
  timestamp : Nat
  success : Bool
  error : Option String := none
  rows_affected : Option Int := none
deriving DecidableEq, Repr

/-- Modelled from the spec: the backend History Recorder (§4.5) is not
under `src/`. The durable history is a single sequence of entries for all
users, held newest-first; `record` prepends the new entry. -/
def recordHistory (e : HistoryEntry) (store : List HistoryEntry) : List HistoryEntry :=
  e :: store

/-- Modelled from the spec: `list(username)` (§4.5) is not under `src/`;
it returns exactly the authenticated user's entries, newest-first (the
store is held newest-first, so filtering preserves that order). -/
def listHistory (store : List HistoryEntry) (u : String) : List HistoryEntry :=
  store.filter (fun e => e.username == u)

/-- Modelled from the spec: `clear(username)` (§4.5) is not under `src/`;
it removes only the authenticated user's entries and always succeeds
(clearing an empty history is not an error). -/
def clearHistory (store : List HistoryEntry) (u : String) : List HistoryEntry :=
  store.filter (fun e => e.username != u)

/-- `handleClearHistory` from the `QueryHistory` component: after the user
confirms and `clearQueryHistory()` resolves, the local history state is set
to `[]`; on cancel or on a rejected call the state is left unchanged. -/
def handleClearHistory (confirmed : Bool) (callSucceeded : Bool)
    (hist : List HistoryEntry) : List HistoryEntry :=
  if confirmed then (if callSucceeded then [] else hist) else hist

/-- Header assignment `config.headers.Authorization = v` on a headers
object: later assignments shadow earlier bindings; lookup takes the first
match. -/
def setHeader (h : List (String × String)) (k v : String) : List (String × String) :=
  (k, v) :: h

/-- First-match header lookup. -/
def lookupHeader (h : List (String × String)) (k : String) : Option String :=
  match h.find? (fun p => p.1 == k) with
  | some p => some p.2
  | none => none

/-- The request interceptor from `api.js` (lines 14–25): reads the stored
token from localStorage and, when it is truthy, sets
`Authorization: Bearer <token>`; otherwise the headers pass unchanged. -/
def requestInterceptor (storedToken : Option String)
    (headers : List (String × String)) : List (String × String) :=
  match storedToken with
  | some t => if t = "" then headers else setHeader headers "Authorization" ("Bearer " ++ t)
  | none => headers

/-- The client-side credential state read and written by the `api.js`
response interceptor: the two localStorage keys and `window.location.href`. -/
structure ClientState where
  token : Option String
  username : Option String
  href : String
deriving DecidableEq, Repr

/-- The response interceptor's error handler from `api.js` (lines 28–39):
on `error.response?.status === 401` it removes both stored credentials and
navigates to `/login`; every error is re-rejected (`Promise.reject(error)`)
regardless. `status = none` models a response-less error (network failure),
for which optional chaining yields `undefined ≠ 401`. Returns the new
client state and whether the rejection was propagated. -/
def responseInterceptorError (st : ClientState) (status : Option Nat) :
    ClientState × Bool :=
  if status = some 401 then
    ({ token := none, username := none, href := "/login" }, true)
  else
    (st, true)

/-- The Tab branch of `handleKeyDown` in `QueryEditor.js`: with the text as
a character sequence,
`query.substring(0, start) + '  ' + query.substring(end)` and the caret
parked at `start + 2` (JS `substring` clamps its indices, as `take`/`drop`
do). -/
def handleTab (query : List Char) (start endIdx : Nat) : List Char × Nat :=
  (query.take start ++ [' ', ' '] ++ query.drop endIdx, start + 2)

/-! ## Helper lemmas -/

theorem jsOrDefault_ne_empty (m : Option String) (d : String) (hd : d ≠ "") :
    jsOrDefault m d ≠ "" := by
  cases m with
  | none =>
      simp only [jsOrDefault]
      exact hd
  | some s =>
      by_cases h : s = ""
      · simp only [jsOrDefault, h, if_pos rfl]
        exact hd
      · simp only [jsOrDefault, if_neg h]
        exact h

theorem mem_ddlKinds_ne_empty {s : String} (h : s ∈ ddlKinds) : s ≠ "" := by
  simp only [ddlKinds, List.mem_cons, List.not_mem_nil, or_false] at h
  rcases h with rfl | rfl | rfl <;> decide

theorem isDDLType_iff (v : JSValue) :
    isDDLType v = true ↔ ∃ s, v = JSValue.str s ∧ s ∈ ddlKinds := by
  cases v with
  | str s =>
      constructor
      · intro h
        have h2 := ((Bool.and_eq_true _ _).mp h).2
        exact ⟨s, rfl, List.elem_iff.mp h2⟩
      · rintro ⟨s', hs, hmem⟩
        cases hs
        have h1 : jsTruthy (JSValue.str s) = true := by
          simpa [jsTruthy] using mem_ddlKinds_ne_empty hmem
        have h2 : ddlKinds.contains s = true := List.elem_iff.mpr hmem
        simp only [isDDLType, h1, h2, Bool.and_self]
  | null => simp [isDDLType, jsTruthy]
  | undefJS => simp [isDDLType, jsTruthy]
  | num n => simp [isDDLType]
  | bool b => simp [isDDLType]

/-! ## Claims -/

/-- C1: along the execute path — a backend reply built by the (spec-modelled)
execute endpoint, or a thrown request error, wrapped by `handleExecute` —
every result delivered to the UI has `success = false` exactly when its
`error` is set and non-empty, carries `data`/`columns` exactly when
`success = true`, and is rendered as the error card (its row data unused)
exactly when `success = false`. -/
theorem C1_success_error_dichotomy (q : String) (outcome : EngineOutcome)
    (elapsed : JSValue) (m : Option String) (hmsg : engineMsgNonempty outcome) :
    ∀ r ∈ [(handleExecute q (HttpReply.ok (backendExecute outcome elapsed))).1,
           (handleExecute q (HttpReply.err m)).1],
      ((r.success = false) ↔ ∃ s, r.error = some s ∧ s ≠ "") ∧
      (r.data.isSome = r.success) ∧
      (r.columns.isSome = r.success) ∧
      ((∃ err, ResultsTable r = RenderView.errorView err) ↔ r.success = false) := by
  have hlocal :
      ∀ r : ExecutionResult,
        r = { success := false, error := some "Please enter a query" } →
        ((r.success = false) ↔ ∃ s, r.error = some s ∧ s ≠ "") ∧
        (r.data.isSome = r.success) ∧
        (r.columns.isSome = r.success) ∧
        ((∃ err, ResultsTable r = RenderView.errorView err) ↔ r.success = false) := by
    rintro r rfl
    refine ⟨⟨fun _ => ⟨"Please enter a query", rfl, by decide⟩, fun _ => rfl⟩, rfl, rfl, ?_⟩
    exact ⟨fun _ => rfl, fun _ => ⟨some "Please enter a query", rfl⟩⟩
  intro r hr
  rcases List.mem_cons.mp hr with rfl | hr
  · by_cases hq : jsTrim q.data = []
    · exact hlocal _ (by simp [handleExecute, hq])
    · have hpass : (handleExecute q (HttpReply.ok (backendExecute outcome elapsed))).1 =
          backendExecute outcome elapsed := by
        simp [handleExecute, hq]
      rw [hpass]
      cases outcome with
      | rowsOut cols rows =>
          refine ⟨by simp [backendExecute], rfl, rfl, ?_⟩
          constructor
          · rintro ⟨err, herr⟩
            cases rows <;> simp [ResultsTable, backendExecute] at herr
          · intro h
            simp [backendExecute] at h
      | affected n =>
          refine ⟨by simp [backendExecute], rfl, rfl, ?_⟩
          constructor
          · rintro ⟨err, herr⟩
            simp [ResultsTable, backendExecute] at herr
          · intro h
            simp [backendExecute] at h
      | failure msg =>
          refine ⟨⟨fun _ => ⟨msg, rfl, hmsg⟩, fun _ => rfl⟩, rfl, rfl, ?_⟩
          exact ⟨fun _ => rfl, fun _ => ⟨some msg, rfl⟩⟩
  · rcases List.mem_singleton.mp hr with rfl
    by_cases hq : jsTrim q.data = []
    · exact hlocal _ (by simp [handleExecute, hq])
    · have hcatch : (handleExecute q (HttpReply.err m)).1 =
          { success := false,
            error := some (jsOrDefault m "Failed to execute query") } := by
        simp [handleExecute, hq]
      rw [hcatch]
      refine ⟨⟨fun _ => ⟨jsOrDefault m "Failed to execute query", rfl,
        jsOrDefault_ne_empty m _ (by decide)⟩, fun _ => rfl⟩, rfl, rfl, ?_⟩
      exact ⟨fun _ => rfl, fun _ => ⟨some (jsOrDefault m "Failed to execute query"), rfl⟩⟩

/-- C1 (witness): the dichotomy instantiated at a failed `SELECT` against a
missing table (non-empty native message) and a response-less thrown error. -/
theorem C1_witness :
    engineMsgNonempty (EngineOutcome.failure "no such table: t") ∧
    ∀ r ∈ [(handleExecute "SELECT * FROM t"
              (HttpReply.ok (backendExecute (EngineOutcome.failure "no such table: t")
                (JSValue.num 1)))).1,
           (handleExecute "SELECT * FROM t" (HttpReply.err none)).1],
      ((r.success = false) ↔ ∃ s, r.error = some s ∧ s ≠ "") ∧
      (r.data.isSome = r.success) ∧
      (r.columns.isSome = r.success) ∧
      ((∃ err, ResultsTable r = RenderView.errorView err) ↔ r.success = false) :=
  ⟨show ("no such table: t" : String) ≠ "" by decide,
   C1_success_error_dichotomy "SELECT * FROM t" (EngineOutcome.failure "no such table: t")
     (JSValue.num 1) none (show ("no such table: t" : String) ≠ "" by decide)⟩

/-- C2 (counterexample): at the empty query, `handleExecute` rejects the
query locally with `success:false` and no backend call, but the error text
is `'Please enter a query'`, not `"empty statement"` as the claim states. -/
theorem C2_counterexample :
    jsTrim ("" : String).data = [] ∧
    (handleExecute "" (HttpReply.ok { success := true })).1.success = false ∧
    (handleExecute "" (HttpReply.ok { success := true })).2 = false ∧
    (handleExecute "" (HttpReply.ok { success := true })).1.error ≠ some "empty statement" ∧
    (handleExecute "" (HttpReply.ok { success := true })).1.error = some "Please enter a query" := by
  refine ⟨rfl, rfl, rfl, ?_, rfl⟩
  intro h
  simp [handleExecute, jsTrim] at h

/-- C2 (amended): every query that is empty after trimming is rejected
before any backend call, with `success:false` and the error text
`'Please enter a query'`; the backend execute call is never issued for it. -/
theorem C2_empty_query_rejected_locally (q : String) (net : HttpReply)
    (h : jsTrim q.data = []) :
    (handleExecute q net).1.success = false ∧
    (handleExecute q net).1.error = some "Please enter a query" ∧
    (handleExecute q net).2 = false := by
  simp [handleExecute, h]

/-- C2 (witness): the amended claim at the whitespace-only query `"   "`. -/
theorem C2_witness :
    jsTrim ("   " : String).data = [] ∧
    ((handleExecute "   " (HttpReply.err none)).1.success = false ∧
     (handleExecute "   " (HttpReply.err none)).1.error = some "Please enter a query" ∧
     (handleExecute "   " (HttpReply.err none)).2 = false) :=
  ⟨by decide, C2_empty_query_rejected_locally "   " (HttpReply.err none) (by decide)⟩

/-- C5: a `null` or `undefined` cell value (including an absent key) is
rendered as the dedicated NULL marker, which differs from every text cell
(in particular from the empty string), and every other value is rendered as
its `String(...)` conversion. -/
theorem C5_null_rendered_distinctly (row : Row) (column : String) :
    (renderCell row column =
      if jsGet row column = JSValue.null ∨ jsGet row column = JSValue.undefJS
      then CellView.nullMark
      else CellView.text (jsToString (jsGet row column))) ∧
    ∀ s : String, CellView.nullMark ≠ CellView.text s := by
  constructor
  · cases h : jsGet row column <;> simp [renderCell, h]
  · intro s h
    cases h

/-- C5 (witness): the rendering equations at a concrete row: a null cell,
an absent column and a text cell. -/
theorem C5_witness :
    renderCell [("a", JSValue.null), ("b", JSValue.str "x")] "a" = CellView.nullMark ∧
    renderCell [("a", JSValue.null), ("b", JSValue.str "x")] "c" = CellView.nullMark ∧
    renderCell [("a", JSValue.null), ("b", JSValue.str "x")] "b" = CellView.text "x" ∧
    CellView.nullMark ≠ CellView.text "" := by
  refine ⟨rfl, rfl, rfl,
    (C5_null_rendered_distinctly [("a", JSValue.null), ("b", JSValue.str "x")] "a").2 ""⟩

/-- C9: a response error with status 401 makes the interceptor drop both
stored credentials and navigate to `/login`, and the rejection is still
propagated; any other status (including a response-less error) leaves the
client state unchanged while still propagating the rejection. -/
theorem C9_unauthorized_clears_credentials (st : ClientState) (status : Option Nat) :
    (status = some 401 →
      responseInterceptorError st status =
        ({ token := none, username := none, href := "/login" }, true)) ∧
    (status ≠ some 401 → responseInterceptorError st status = (st, true)) := by
  constructor <;> intro h <;> simp [responseInterceptorError, h]

/-- C9 (witness): the interceptor at a concrete logged-in state, for a 401
and for a 500 response. -/
theorem C9_witness :
    responseInterceptorError ⟨some "t0", some "alice", "/dashboard"⟩ (some 401) =
      ({ token := none, username := none, href := "/login" }, true) ∧
    responseInterceptorError ⟨some "t0", some "alice", "/dashboard"⟩ (some 500) =
      (⟨some "t0", some "alice", "/dashboard"⟩, true) :=
  ⟨(C9_unauthorized_clears_credentials ⟨some "t0", some "alice", "/dashboard"⟩ (some 401)).1 rfl,
   (C9_unauthorized_clears_credentials ⟨some "t0", some "alice", "/dashboard"⟩ (some 500)).2
     (by decide)⟩

/-- C4: the derived statement kind never gates execution — `handleExecute`
submits every query whose trimmed text is non-empty, with no dependence on
any classification — and `handleQueryExecuted` refreshes the tables-list
cache exactly when the result has `success:true` and its first data element
carries a `type` equal to `create_table`, `drop_table` or `alter_table`. -/
theorem C4_kind_advisory_cache_invalidation (q : String) (net : HttpReply)
    (r : ExecutionResult) :
    ((handleExecute q net).2 = !(jsTrim q.data == [])) ∧
    (handleQueryExecuted r = true ↔
      r.success = true ∧
      ∃ first rest s, r.data = some (first :: rest) ∧
        jsGet first "type" = JSValue.str s ∧ s ∈ ddlKinds) := by
  constructor
  · cases net <;> by_cases h : jsTrim q.data = [] <;> simp [handleExecute, h]
  · rcases r with ⟨succ, data, cols, err, t, ra⟩
    cases succ
    · simp [handleQueryExecuted]
    · rcases data with _ | (_ | ⟨first, rest⟩)
      · simp [handleQueryExecuted]
      · simp [handleQueryExecuted]
      · simp [handleQueryExecuted, isDDLType_iff]

/-- C4 (witness): a successful `CREATE TABLE` result (first data element
tagged `create_table`) triggers the refresh; the empty query is never
submitted while a `SELECT` text is, independent of its kind. -/
theorem C4_witness :
    ((handleExecute "SELECT 1" (HttpReply.ok { success := true })).2 =
        !(jsTrim ("SELECT 1" : String).data == []) ∧
      (handleQueryExecuted
          { success := true,
            data := some [[("type", JSValue.str "create_table")]] } = true ↔
        ({ success := true,
           data := some [[("type", JSValue.str "create_table")]] } : ExecutionResult).success = true ∧
        ∃ first rest s,
          ({ success := true,
             data := some [[("type", JSValue.str "create_table")]] } : ExecutionResult).data =
              some (first :: rest) ∧
            jsGet first "type" = JSValue.str s ∧ s ∈ ddlKinds)) ∧
    handleQueryExecuted
        { success := true, data := some [[("type", JSValue.str "create_table")]] } = true :=
  ⟨C4_kind_advisory_cache_invalidation "SELECT 1" (HttpReply.ok { success := true })
      { success := true, data := some [[("type", JSValue.str "create_table")]] },
   by decide⟩

/-- C6: for a successful result with a non-empty `data` array, the rendered
table's header list is exactly `results.columns` when that field is present
(no sorting, no deduplication), and exactly the first row's key order when
it is absent; each body row lists its cells in that same column order. -/
theorem C6_column_order_preserved (r : ExecutionResult) (first : Row)
    (rest : List Row) (hs : r.success = true) (hd : r.data = some (first :: rest)) :
    ResultsTable r =
      RenderView.table (r.columns.getD (jsKeys first))
        ((first :: rest).map fun row => (r.columns.getD (jsKeys first)).map (renderCell row))
        (shownExecTime r) := by
  simp [ResultsTable, hs, hd]

/-- C6 (witness): an unsorted, duplicated column list `["b","a","b"]` is
rendered exactly as given — out of order and with the duplicate kept. -/
theorem C6_witness :
    ResultsTable
        { success := true,
          data := some [[("a", JSValue.str "x"), ("b", JSValue.str "y")]],
          columns := some ["b", "a", "b"] } =
      RenderView.table ["b", "a", "b"]
        [[CellView.text "y", CellView.text "x", CellView.text "y"]] none := by
  have h := C6_column_order_preserved
    { success := true,
      data := some [[("a", JSValue.str "x"), ("b", JSValue.str "y")]],
      columns := some ["b", "a", "b"] }
    [("a", JSValue.str "x"), ("b", JSValue.str "y")] [] rfl rfl
  exact h.trans (by decide)

/-- C7: after `clear(u)` the listing for `u` is empty, `clear` is
idempotent, clearing an empty history succeeds with an empty history, and
the `QueryHistory` component empties its local list after a confirmed,
successful clear call. -/
theorem C7_clear_empties_and_is_idempotent (store : List HistoryEntry) (u : String) :
    listHistory (clearHistory store u) u = [] ∧
    clearHistory (clearHistory store u) u = clearHistory store u ∧
    clearHistory ([] : List HistoryEntry) u = [] ∧
    handleClearHistory true true store = [] := by
  refine ⟨?_, ?_, rfl, rfl⟩
  · induction store with
    | nil => rfl
    | cons e t ih =>
        by_cases h : e.username = u <;>
          simp [listHistory, clearHistory, List.filter_cons, h] at ih ⊢
  · induction store with
    | nil => rfl
    | cons e t ih =>
        by_cases h : e.username = u <;>
          simp [clearHistory, List.filter_cons, h] at ih ⊢

/-- C3: a history listing for user `A` contains no entry of any other user
`B`; clearing for `A` keeps every entry of `B`; and the request
interceptor authenticates requests with the requester's own stored token
(`Authorization: Bearer <token>`). -/
theorem C3_history_isolation (store : List HistoryEntry) (A B : String) (hAB : A ≠ B) :
    (∀ e ∈ listHistory store A, e.username ≠ B) ∧
    (∀ e ∈ store, e.username = B → e ∈ clearHistory store A) ∧
    (∀ t : String, t ≠ "" →
      lookupHeader (requestInterceptor (some t) []) "Authorization" =
        some ("Bearer " ++ t)) := by
  refine ⟨?_, ?_, ?_⟩
  · intro e he
    have hA : e.username = A := by
      have h := List.mem_filter.mp he
      simpa using h.2
    rw [hA]
    exact hAB
  · intro e he hB
    refine List.mem_filter.mpr ⟨he, ?_⟩
    rw [hB]
    exact bne_iff_ne.mpr (Ne.symm hAB)
  · intro t ht
    simp [requestInterceptor, setHeader, lookupHeader, ht, List.find?]

/-- C3 (witness): with Alice's and Bob's entries in the store, Alice's
listing shows no entry of Bob, Bob's entry survives Alice's clear, and
Alice's token is what authenticates her request. -/
theorem C3_witness :
    ("alice" : String) ≠ "bob" ∧
    (∀ e ∈ listHistory
        [{ username := "alice", query := "SELECT 1", timestamp := 2, success := true },
         { username := "bob", query := "SELECT 2", timestamp := 1, success := false }]
        "alice", e.username ≠ "bob") ∧
    ({ username := "bob", query := "SELECT 2", timestamp := 1, success := false } : HistoryEntry) ∈
      clearHistory
        [{ username := "alice", query := "SELECT 1", timestamp := 2, success := true },
         { username := "bob", query := "SELECT 2", timestamp := 1, success := false }]
        "alice" ∧
    lookupHeader (requestInterceptor (some "tokA") []) "Authorization" =
      some ("Bearer " ++ "tokA") := by
  have h := C3_history_isolation
    [{ username := "alice", query := "SELECT 1", timestamp := 2, success := true },
     { username := "bob", query := "SELECT 2", timestamp := 1, success := false }]
    "alice" "bob" (by decide)
  exact ⟨by decide, h.1,
    h.2.1 { username := "bob", query := "SELECT 2", timestamp := 1, success := false }
      (by simp) rfl,
    h.2.2 "tokA" (by decide)⟩

/-- C10: on a Tab keypress with selection `[start, end]` inside the text,
the new text keeps the first `start` characters unchanged, carries exactly
two spaces where the selection was, continues with the original text from
`end` onward, has the expected length, and the caret lands at `start + 2`. -/
theorem C10_tab_inserts_two_spaces (q : List Char) (s e : Nat)
    (hse : s ≤ e) (hel : e ≤ q.length) :
    (handleTab q s e).1.take s = q.take s ∧
    ((handleTab q s e).1.drop s).take 2 = [' ', ' '] ∧
    (handleTab q s e).1.drop (s + 2) = q.drop e ∧
    (handleTab q s e).1.length = q.length - (e - s) + 2 ∧
    (handleTab q s e).2 = s + 2 := by
  have hsl : s ≤ q.length := le_trans hse hel
  have hA : (q.take s).length = s := by
    simpa [List.length_take] using Nat.min_eq_left hsl
  have hA2 : ((q.take s) ++ [' ', ' ']).length = s + 2 := by
    simp [List.length_append, hA]
  refine ⟨?_, ?_, ?_, ?_, rfl⟩
  · calc (handleTab q s e).1.take s
        = ((q.take s) ++ ([' ', ' '] ++ q.drop e)).take s := by
          simp [handleTab, List.append_assoc]
      _ = q.take s := List.take_left' hA
  · calc ((handleTab q s e).1.drop s).take 2
        = (((q.take s) ++ ([' ', ' '] ++ q.drop e)).drop s).take 2 := by
          simp [handleTab, List.append_assoc]
      _ = ([' ', ' '] ++ q.drop e).take 2 := by rw [List.drop_left' hA]
      _ = [' ', ' '] := List.take_left' rfl
  · calc (handleTab q s e).1.drop (s + 2)
        = (((q.take s) ++ [' ', ' ']) ++ q.drop e).drop (s + 2) := rfl
      _ = q.drop e := List.drop_left' hA2
  · have h2 : ([' ', ' '] : List Char).length = 2 := rfl
    simp only [handleTab, List.length_append, hA, List.length_drop, h2]
    omega

/-- C10 (witness): the Tab rewrite on the concrete text `abcd` with the
selection `[1, 3]`. -/
theorem C10_witness :
    (1 : Nat) ≤ 3 ∧ 3 ≤ (['a', 'b', 'c', 'd'] : List Char).length ∧
    ((handleTab ['a', 'b', 'c', 'd'] 1 3).1.take 1 = (['a', 'b', 'c', 'd'] : List Char).take 1 ∧
     ((handleTab ['a', 'b', 'c', 'd'] 1 3).1.drop 1).take 2 = [' ', ' '] ∧
     (handleTab ['a', 'b', 'c', 'd'] 1 3).1.drop (1 + 2) = (['a', 'b', 'c', 'd'] : List Char).drop 3 ∧
     (handleTab ['a', 'b', 'c', 'd'] 1 3).1.length = (['a', 'b', 'c', 'd'] : List Char).length - (3 - 1) + 2 ∧
     (handleTab ['a', 'b', 'c', 'd'] 1 3).2 = 1 + 2) := by
  refine ⟨by decide, by decide, ?_⟩
  have h := C10_tab_inserts_two_spaces ['a', 'b', 'c', 'd'] 1 3 (by decide) (by decide)
  exact ⟨h.1, h.2.1, h.2.2.1, h.2.2.2.1, h.2.2.2.2⟩

/-- C8 (counterexample): a response object that carries its duration under
the key `execution_time_seconds` (present and truthy) has no execution time
displayed — the consumer does not read that field. -/
theorem C8_counterexample :
    jsGet [("execution_time_seconds", JSValue.num 1)] "execution_time_seconds" =
      JSValue.num 1 ∧
    jsTruthy (JSValue.num 1) = true ∧
    execTimeShown [("execution_time_seconds", JSValue.num 1)] = none := by
  refine ⟨by decide, by decide, by decide⟩

/-- C8 (amended): the duration travels under the field named
`execution_time`: the consumer displays exactly the value of the
`execution_time` property when it is truthy, the displayed time depends on
no other field of the response, and the (spec-modelled) backend attaches
the elapsed time under `execution_time`. -/
theorem C8_duration_field_is_execution_time (resp resp2 : JSObject) (v : JSValue)
    (h : jsGet resp "execution_time" = v) (hv : jsTruthy v = true) :
    execTimeShown resp = some v ∧
    (jsGet resp2 "execution_time" = jsGet resp "execution_time" →
      execTimeShown resp2 = execTimeShown resp) ∧
    (∀ (outcome : EngineOutcome) (elapsed : JSValue),
      (backendExecute outcome elapsed).execution_time = some elapsed) := by
  refine ⟨by simp [execTimeShown, h, hv], ?_, ?_⟩
  · intro h2
    simp [execTimeShown, h2]
  · intro outcome elapsed
    cases outcome <;> rfl

/-- C8 (witness): with the duration under `execution_time`, the consumer
displays it, even with a decoy `execution_time_seconds` field present. -/
theorem C8_witness :
    jsGet [("execution_time", JSValue.num 2), ("execution_time_seconds", JSValue.num 9)]
        "execution_time" = JSValue.num 2 ∧
    jsTruthy (JSValue.num 2) = true ∧
    execTimeShown
        [("execution_time", JSValue.num 2), ("execution_time_seconds", JSValue.num 9)] =
      some (JSValue.num 2) :=
  ⟨by decide, by decide,
   (C8_duration_field_is_execution_time
      [("execution_time", JSValue.num 2), ("execution_time_seconds", JSValue.num 9)]
      [] (JSValue.num 2) (by decide) (by decide)).1⟩

end SqlRunner
